import Mathlib

/-!
# Agent Chain Optimizer — verification development

The repository `agent-chain-optimizer-cli` ships a CLI shim (`src/index.ts`)
over the `agent-chain-optimizer` core engine (Execution Tracer, Metrics
Aggregator, Bottleneck Detector, Optimization Planner).  The engine itself is
not part of the repository's sources; its behaviour is modelled here from the
specification (§3–§4.5, §6–§7).  The CLI's simulate loop, which is in the
sources, is embedded directly from `src/index.ts`.
-/

namespace ACO

/-- Modelled from the spec: execution status (`running`, `completed`, `failed`), §3. -/
inductive ExecStatus where
  | running
  | completed
  | failed
deriving DecidableEq, Repr

/-- Modelled from the spec: a StepEvent record
`{stepId, startTimestamp, endTimestamp, inputTokens, outputTokens, success, error?}` (§3).
The `agentId` of the step definition is kept on the event so the Aggregator can
resolve the agent's cost profile (§4.3 step 1).  An event is *open* while
`endTimestamp = none`. -/
structure StepEvent where
  stepId : String
  agentId : String
  startTimestamp : Nat
  endTimestamp : Option Nat
  inputTokens : Nat
  outputTokens : Nat
  success : Bool
  error : Option String
deriving DecidableEq, Repr

/-- Modelled from the spec: an Execution with its workflow id, label, status,
start/end time and owning Trace (ordered list of StepEvents), §3. -/
structure Execution where
  workflowId : String
  label : String
  status : ExecStatus
  startTime : Nat
  endTime : Option Nat
  trace : List StepEvent
deriving DecidableEq, Repr

/-- Modelled from the spec: error kinds of §7 that the Tracer operations raise. -/
inductive TracerError where
  | executionNotFound
  | executionClosed
  | stepAlreadyRunning
  | stepNotRunning
deriving DecidableEq, Repr

/-- Modelled from the spec: a step definition `{id, agentId, inputTokens?, outputTokens?}` (§6). -/
structure StepDef where
  id : String
  agentId : String
  inputTokens : Option Nat
  outputTokens : Option Nat
deriving DecidableEq, Repr

/-- Modelled from the spec: the optimizer's in-memory state — the Agent Registry
(agent id ↦ cost-per-token profile) and the Execution Registry
(execution id ↦ Execution), with a fresh-id counter (§2, §5). -/
structure OptimizerState where
  agents : List (String × Rat)
  executions : List (Nat × Execution)
  nextId : Nat
deriving DecidableEq, Repr

/-- Look an execution up by id in the Execution Registry. -/
def lookupExec (s : OptimizerState) (i : Nat) : Option Execution :=
  (s.executions.find? (fun p => p.1 == i)).map Prod.snd

/-- Replace the execution stored under id `i`. -/
def updateExec (s : OptimizerState) (i : Nat) (e : Execution) : OptimizerState :=
  { s with executions := s.executions.map (fun p => if p.1 == i then (i, e) else p) }

/-- Is a StepEvent for `sid` currently open (started, not yet completed) in the trace? -/
def stepOpen (tr : List StepEvent) (sid : String) : Bool :=
  tr.any (fun ev => ev.stepId == sid && ev.endTimestamp == none)

/-- Modelled from the spec: `startExecution(workflowId, label) -> executionId`
allocates a new Execution in `running` state with a fresh empty Trace and
returns its id (§4.2, §6). -/
def startExecution (s : OptimizerState) (workflowId label : String) (now : Nat) :
    Nat × OptimizerState :=
  let e : Execution :=
    { workflowId := workflowId, label := label, status := .running
      startTime := now, endTime := none, trace := [] }
  (s.nextId,
   { s with executions := (s.nextId, e) :: s.executions, nextId := s.nextId + 1 })

/-- Modelled from the spec: `startStep(executionId, stepDefinition, traceId)` appends a
StepEvent with `startTimestamp = now`, `endTimestamp = null`.  Fails with
`ExecutionNotFoundError` if the execution id is unknown, `StepAlreadyRunningError`
if a StepEvent for that step id is already open in the same execution, and
`ExecutionClosedError` if the execution has already been completed (§4.2). -/
def startStep (s : OptimizerState) (execId : Nat) (step : StepDef) (now : Nat) :
    Except TracerError OptimizerState :=
  match lookupExec s execId with
  | none => .error .executionNotFound
  | some e =>
    if stepOpen e.trace step.id then .error .stepAlreadyRunning
    else if e.status != .running then .error .executionClosed
    else
      let ev : StepEvent :=
        { stepId := step.id, agentId := step.agentId, startTimestamp := now
          endTimestamp := none, inputTokens := 0, outputTokens := 0
          success := false, error := none }
      .ok (updateExec s execId { e with trace := e.trace ++ [ev] })

/-- Close the first open StepEvent for `sid`, stamping completion data. -/
def closeEvent (tr : List StepEvent) (sid : String) (inTok outTok : Nat)
    (success : Bool) (err : Option String) (now : Nat) : List StepEvent :=
  match tr with
  | [] => []
  | ev :: rest =>
    if ev.stepId == sid && ev.endTimestamp == none then
      { ev with endTimestamp := some now, inputTokens := inTok,
                outputTokens := outTok, success := success, error := err } :: rest
    else ev :: closeEvent rest sid inTok outTok success err now

/-- Modelled from the spec: `completeStep(executionId, stepId, inputTokens, outputTokens,
success, error?)` closes the matching open StepEvent, stamping `endTimestamp = now`.
Fails with `ExecutionNotFoundError` for an unknown execution id and with
`StepNotRunningError` if no open event for that step id exists in that execution
(§4.2); a frozen trace has no open events, so calls after `completeExecution`
fail as required. -/
def completeStep (s : OptimizerState) (execId : Nat) (stepId : String)
    (inTok outTok : Nat) (success : Bool) (err : Option String) (now : Nat) :
    Except TracerError OptimizerState :=
  match lookupExec s execId with
  | none => .error .executionNotFound
  | some e =>
    if !stepOpen e.trace stepId then .error .stepNotRunning
    else .ok (updateExec s execId
      { e with trace := closeEvent e.trace stepId inTok outTok success err now })

/-- Force-close an open StepEvent with `success = false` and an implicit timeout
error (§4.2 `completeExecution`); a closed event is left unchanged. -/
def forceClose (now : Nat) (ev : StepEvent) : StepEvent :=
  if ev.endTimestamp == none then
    { ev with endTimestamp := some now, success := false, error := some "timeout" }
  else ev

/-- The finalized Execution produced by `completeExecution`: end time stamped,
status set, every still-open step force-closed. -/
def closeExec (e : Execution) (finalStatus : ExecStatus) (now : Nat) : Execution :=
  { e with status := finalStatus, endTime := some now,
           trace := e.trace.map (forceClose now) }

/-- Modelled from the spec: `completeExecution(executionId, finalStatus)` stamps the
end time, sets the status and freezes the Trace; any step left open is force-closed
with `success=false` and an implicit timeout error (§4.2).  Fails with
`ExecutionNotFoundError` for an unknown id and `ExecutionClosedError` if the
execution is no longer running. -/
def completeExecution (s : OptimizerState) (execId : Nat) (finalStatus : ExecStatus)
    (now : Nat) : Except TracerError OptimizerState :=
  match lookupExec s execId with
  | none => .error .executionNotFound
  | some e =>
    if e.status != .running then .error .executionClosed
    else .ok (updateExec s execId (closeExec e finalStatus now))

/-! ## Metrics Aggregator (§4.3) and Bottleneck Detector (§4.4) -/

/-- Latency of a StepEvent: `endTimestamp - startTimestamp`; an open event
contributes 0 (the Aggregator only ever sees frozen traces, §4.3 step 1). -/
def eventLatency (ev : StepEvent) : Nat :=
  (ev.endTimestamp.getD ev.startTimestamp) - ev.startTimestamp

/-- Modelled from the spec: total latency of a Trace — the sum of its step
latencies (sequential model, §4.3 step 2). -/
def traceLatency (tr : List StepEvent) : Nat :=
  (tr.map eventLatency).sum

/-- Cost-per-token profile of an agent; a missing agent falls back to a
zero-cost default rather than failing the analysis (§4.3 step 1). -/
def agentCost (agents : List (String × Rat)) (aid : String) : Rat :=
  ((agents.find? (fun p => p.1 == aid)).map Prod.snd).getD 0

/-- Cost of a StepEvent: the agent's cost-per-token applied to
`inputTokens + outputTokens` (§4.3 step 1). -/
def eventCost (agents : List (String × Rat)) (ev : StepEvent) : Rat :=
  agentCost agents ev.agentId * ((ev.inputTokens : Rat) + (ev.outputTokens : Rat))

/-- Cost of a Trace: sum of its step costs. -/
def traceCost (agents : List (String × Rat)) (tr : List StepEvent) : Rat :=
  (tr.map (eventCost agents)).sum

/-- `⌈a / b⌉` on naturals: the nearest-rank ceiling used for percentile ranks. -/
def ceilDivNat (a b : Nat) : Nat := (a + b - 1) / b

/-- Modelled from the spec: nearest-rank percentile over a multiset of latencies —
sort ascending, take the element at `rank = ceil(percentile * n)` clamped to
`[1, n]`, where the percentile is `num/den` (§4.3 step 3); the empty multiset
yields 0 (§4.3 input contract). -/
def percentileOf (lats : List Nat) (num den : Nat) : Nat :=
  let sorted := lats.insertionSort (· ≤ ·)
  if sorted.isEmpty then 0
  else
    let rank := max 1 (min sorted.length (ceilDivNat (num * sorted.length) den))
    sorted.getD (rank - 1) 0

/-- The four latency percentile metrics p50/p90/p95/p99 (§3, §4.3 step 3). -/
structure LatencyMetrics where
  p50 : Nat
  p90 : Nat
  p95 : Nat
  p99 : Nat
deriving DecidableEq, Repr

/-- Percentiles over the multiset of per-execution total latencies (§4.3 step 3). -/
def latencyMetricsOf (lats : List Nat) : LatencyMetrics :=
  { p50 := percentileOf lats 50 100
    p90 := percentileOf lats 90 100
    p95 := percentileOf lats 95 100
    p99 := percentileOf lats 99 100 }

/-- An execution counts toward the success rate iff its status is `completed`
and its trace contains no failed step (§4.3 step 4). -/
def isSuccessfulExec (e : Execution) : Bool :=
  e.status == .completed && e.trace.all (fun ev => ev.success)

/-- Modelled from the spec: success rate = successful executions / total executions,
0 when there are no executions — the division is guarded, never performed on
zero (§4.3 step 4, §7). -/
def successRateOf (execs : List Execution) : Rat :=
  if execs.length = 0 then 0
  else ((execs.countP (fun e => isSuccessfulExec e)) : Rat) / (execs.length : Rat)

/-- Per-step breakdown entry: average latency, share of total latency,
bottleneck flag (§3, §4.3 step 5, §4.4). -/
structure StepAnalysis where
  stepId : String
  agentName : String
  latency : Rat
  percentageOfTotal : Rat
  isBottleneck : Bool
deriving DecidableEq, Repr

/-- All step events of a set of completed traces, flattened. -/
def allEvents (execs : List Execution) : List StepEvent :=
  (execs.map (fun e => e.trace)).flatten

/-- Average latency of a step id across all traces (0 when it never ran). -/
def stepAvgLatency (evs : List StepEvent) (sid : String) : Rat :=
  let mine := evs.filter (fun ev => ev.stepId == sid)
  if mine.length = 0 then 0
  else ((mine.map eventLatency).sum : Rat) / (mine.length : Rat)

/-- Modelled from the spec: per-step breakdown with
`percentageOfTotal = stepAverageLatency / workflowTotalLatency * 100` guarded
against a zero total (§4.3 step 5), and the bottleneck policy: share above the
20% threshold OR top-1 by absolute average latency (§4.4). -/
def stepAnalysisOf (execs : List Execution) (totalLat : Nat) : List StepAnalysis :=
  let evs := allEvents execs
  let sids := (evs.map (fun ev => ev.stepId)).dedup
  let avg := fun sid => stepAvgLatency evs sid
  let maxAvg := ((sids.map avg).foldr max 0 : Rat)
  sids.map (fun sid =>
    let a := avg sid
    let pct : Rat := if totalLat = 0 then 0 else a / (totalLat : Rat) * 100
    { stepId := sid
      agentName := (((evs.find? (fun ev => ev.stepId == sid)).map
        (fun ev => ev.agentId)).getD "")
      latency := a
      percentageOfTotal := pct
      isBottleneck := (pct > 20 : Bool) || (a == maxAvg) })

/-- The AnalysisResult: recomputed on demand, never persisted (§3). -/
structure AnalysisResult where
  totalLatency : Nat
  totalCost : Rat
  successRate : Rat
  latencyMetrics : LatencyMetrics
  stepAnalysis : List StepAnalysis
deriving DecidableEq, Repr

/-- The completed (frozen) Executions of a workflow id: executions still
`running` are excluded until `completeExecution` is called (§4.3, §5). -/
def completedExecs (s : OptimizerState) (w : String) : List Execution :=
  (s.executions.map Prod.snd).filter
    (fun e => e.workflowId == w && e.status != ExecStatus.running)

/-- Analysis over a fixed set of completed executions and agent profiles. -/
def analyzeExecs (agents : List (String × Rat)) (execs : List Execution) :
    AnalysisResult :=
  let lats := execs.map (fun e => traceLatency e.trace)
  let totalLat := lats.sum
  { totalLatency := totalLat
    totalCost := (execs.map (fun e => traceCost agents e.trace)).sum
    successRate := successRateOf execs
    latencyMetrics := latencyMetricsOf lats
    stepAnalysis := stepAnalysisOf execs totalLat }

/-- Modelled from the spec: `analyzeWorkflow(workflowId) -> AnalysisResult`, a pure
function of the set of completed Traces for the requested workflow id plus the
registered Agent cost profiles (§3, §4.3, §6). -/
def analyzeWorkflow (s : OptimizerState) (w : String) : AnalysisResult :=
  analyzeExecs s.agents (completedExecs s w)

/-! ## Optimization Planner (§4.5) -/

/-- Modelled from the spec: a workflow step definition for the Planner — id, agent
reference, declared input size, optional explicit dependency list (`none` means
"sequential successor of the previous step", §3), a declared latency/cost
estimate used by the dry structural pass (§4.5), and a cache-lookup marker
(§4.5 strategy 2). -/
structure WStep where
  id : String
  agentId : String
  inputTokens : Nat
  deps : Option (List String)
  latency : Rat
  cost : Rat
  cached : Bool
deriving DecidableEq, Repr, Inhabited

/-- Modelled from the spec: a Workflow — id, step list, plus the concurrent groups
recorded by the Parallelization strategy in the rewritten workflow (§3, §4.5). -/
structure Workflow where
  id : String
  steps : List WStep
  concurrentGroups : List (List String)
deriving DecidableEq, Repr

/-- Predicted improvements of one applied strategy (§3 OptimizationResult). -/
structure Improvements where
  latencyReduction : Rat
  costReduction : Rat
deriving DecidableEq, Repr

/-- One OptimizationResult entry per applied strategy (§3). -/
structure OptimizationResult where
  type : String
  improvements : Improvements
deriving DecidableEq, Repr

/-- Effective dependencies of the step at position `k`: the declared list when
present, else the previous step in the chain (§3 Step). -/
def effectiveDeps (steps : List WStep) (k : Nat) : List String :=
  match (steps.getD k default).deps with
  | some l => l
  | none => if k = 0 then [] else [(steps.getD (k - 1) default).id]

/-- Direct dependency edges of a workflow as an adjacency function on step ids. -/
def depAdj (steps : List WStep) (sid : String) : List String :=
  match steps.findIdx? (fun st => st.id == sid) with
  | some k => effectiveDeps steps k
  | none => []

/-- Fuel-bounded reachability in the dependency graph: does `x` transitively
depend on `y`?  Fuel `steps.length` suffices for acyclic declared graphs
(topological reachability check, §4.5 strategy 1). -/
def reachableDep (steps : List WStep) (fuel : Nat) (x y : String) : Bool :=
  match fuel with
  | 0 => x == y
  | f + 1 => x == y || (depAdj steps x).any (fun z => reachableDep steps f z y)

/-- Two steps are independent when neither transitively depends on the other. -/
def independentSteps (steps : List WStep) (a b : WStep) : Bool :=
  !(a.id == b.id) &&
  !reachableDep steps steps.length a.id b.id &&
  !reachableDep steps steps.length b.id a.id

/-- All ordered pairs (earlier, later) of a list. -/
def orderedPairs {α : Type} : List α → List (α × α)
  | [] => []
  | x :: xs => xs.map (fun y => (x, y)) ++ orderedPairs xs

/-- First pair of distinct steps with no transitive dependency between them that
is not already marked concurrent — the pair the Parallelization strategy groups. -/
def firstIndependentPair (w : Workflow) : Option (WStep × WStep) :=
  (orderedPairs w.steps).find? (fun p =>
    independentSteps w.steps p.1 p.2 &&
    !(w.concurrentGroups.any (fun g => g.contains p.1.id && g.contains p.2.id)))

/-- Baseline total latency of a workflow: sum of the declared step latencies
(sequential estimate baseline, §4.5). -/
def wfTotalLatency (w : Workflow) : Rat :=
  (w.steps.map (fun st => st.latency)).sum

/-- Modelled from the spec: predicted improvements when the Parallelization strategy
groups steps `a` and `b`: latency reduction
`(sum of their individual latencies - max of their individual latencies) / totalLatency * 100`
(division guarded on a zero total, §7) and cost reduction 0 (§4.5 strategy 1). -/
def parallelImprovements (w : Workflow) (a b : WStep) : Improvements :=
  { latencyReduction :=
      if wfTotalLatency w = 0 then 0
      else (a.latency + b.latency - max a.latency b.latency) / wfTotalLatency w * 100
    costReduction := 0 }

/-- Precondition of the Parallelization strategy: some ungrouped independent pair. -/
def parallelizationPrecond (w : Workflow) : Bool :=
  (firstIndependentPair w).isSome

/-- Action of the Parallelization strategy: mark the pair as a concurrent group
in the rewritten workflow and report the predicted improvements (§4.5 strategy 1). -/
def parallelizationApply (w : Workflow) : Workflow × OptimizationResult :=
  match firstIndependentPair w with
  | some (a, b) =>
    ({ w with concurrentGroups := w.concurrentGroups ++ [[a.id, b.id]] },
     { type := "parallelization", improvements := parallelImprovements w a b })
  | none => (w, { type := "parallelization", improvements := ⟨0, 0⟩ })

/-- First pair of positions `i < j` with identical `(agentId, inputTokens)` whose
later occurrence is not yet a cache-lookup marker (§4.5 strategy 2 precondition). -/
def firstCachePair (w : Workflow) : Option (WStep × WStep) :=
  (orderedPairs w.steps).find? (fun p =>
    p.1.agentId == p.2.agentId && p.1.inputTokens == p.2.inputTokens &&
    !p.2.cached)

/-- Precondition of the Caching strategy: identical `(agentId, input)` pairs recur. -/
def cachingPrecond (w : Workflow) : Bool :=
  (firstCachePair w).isSome

/-- Total declared cost of a workflow. -/
def wfTotalCost (w : Workflow) : Rat :=
  (w.steps.map (fun st => st.cost)).sum

/-- Action of the Caching strategy: replace the repeated step with a cache-lookup
marker preserving the first execution; predicted cost reduction is the fraction
of total cost attributable to the elided repeated call, latency analogously
(§4.5 strategy 2; divisions guarded, §7). -/
def cachingApply (w : Workflow) : Workflow × OptimizationResult :=
  match firstCachePair w with
  | some (_, b) =>
    ({ w with steps := w.steps.map (fun st =>
        if st.id == b.id then { st with cached := true } else st) },
     { type := "caching"
       improvements :=
         { latencyReduction :=
             if wfTotalLatency w = 0 then 0 else b.latency / wfTotalLatency w * 100
           costReduction :=
             if wfTotalCost w = 0 then 0 else b.cost / wfTotalCost w * 100 } })
  | none => (w, { type := "caching", improvements := ⟨0, 0⟩ })

/-- Consecutive positions whose steps share an agent id (§4.5 strategy 3
precondition; consecutive steps have no intervening dependency). -/
def firstBatchIdx (steps : List WStep) : Option Nat :=
  (List.range steps.length).find? (fun k =>
    k + 1 < steps.length &&
    (steps.getD k default).agentId == (steps.getD (k + 1) default).agentId)

/-- Precondition of the Batching strategy: consecutive steps share an agent id. -/
def batchingPrecond (w : Workflow) : Bool :=
  (firstBatchIdx w.steps).isSome

/-- Merge the step at `k+1` into the step at `k`, combining token counts. -/
def mergeAt (steps : List WStep) (k : Nat) : List WStep :=
  let a := steps.getD k default
  let b := steps.getD (k + 1) default
  (steps.take k ++
    [{ a with inputTokens := a.inputTokens + b.inputTokens,
               latency := a.latency + b.latency, cost := a.cost + b.cost }]) ++
  steps.drop (k + 2)

/-- Action of the Batching strategy: merge the consecutive same-agent pair into
one step with combined token counts; the predicted reduction uses the documented
fixed 10%-per-merge discount factor (§4.5 strategy 3). -/
def batchingApply (w : Workflow) : Workflow × OptimizationResult :=
  match firstBatchIdx w.steps with
  | some k =>
    ({ w with steps := mergeAt w.steps k },
     { type := "batching", improvements := { latencyReduction := 10, costReduction := 10 } })
  | none => (w, { type := "batching", improvements := ⟨0, 0⟩ })

/-- A strategy: a precondition and a rewrite action (§4.5). -/
structure Strategy where
  precond : Workflow → Bool
  apply : Workflow → Workflow × OptimizationResult

/-- The fixed priority order of §4.5: Parallelization, Caching, Batching. -/
def strategies : List Strategy :=
  [⟨parallelizationPrecond, parallelizationApply⟩,
   ⟨cachingPrecond, cachingApply⟩,
   ⟨batchingPrecond, batchingApply⟩]

/-- Apply one strategy to the current (possibly already-rewritten) workflow,
only if its precondition holds on that current state (§4.5). -/
def applyStrategy (acc : Workflow × List OptimizationResult) (s : Strategy) :
    Workflow × List OptimizationResult :=
  if s.precond acc.1 then
    let (w', r) := s.apply acc.1
    (w', acc.2 ++ [r])
  else acc

/-- Modelled from the spec: `optimizeWorkflow(workflow) -> {optimizedWorkflow, results}` —
strategies evaluated in fixed priority order, each applied only if its
precondition holds on the current workflow state; if no precondition holds the
result list is empty and the optimized workflow equals the input (§4.5, §7). -/
def optimizeWorkflow (w : Workflow) : Workflow × List OptimizationResult :=
  strategies.foldl applyStrategy (w, [])

/-! ## The CLI simulate loop (embedded from `src/index.ts`, analyze command) -/

/-- A step of the external workflow JSON consumed by the CLI:
`{id, agentId, inputTokens?, outputTokens?}` (§6); an absent or JSON-`null`
token field is `none`. -/
structure CliStep where
  id : String
  agentId : String
  inputTokens : Option Nat
  outputTokens : Option Nat
deriving DecidableEq, Repr

/-- JavaScript `v || d` on an optional number: `undefined`, `null` and `0` are
falsy and yield the default `d` (`step.inputTokens || 100` in `src/index.ts`). -/
def jsOrDefault (v : Option Nat) (d : Nat) : Nat :=
  match v with
  | none => d
  | some n => if n = 0 then d else n

/-- One optimizer call issued by the CLI's simulate loop. -/
inductive SimCall where
  | start (execId : String) (stepId : String)
  | complete (execId : String) (stepId : String) (inTok outTok : Nat) (success : Bool)
deriving DecidableEq, Repr

/-- The calls the simulate block of the analyze command issues for its step loop
(`src/index.ts` lines 43–46): for each step, `startStep('cli-exec', step, traceId)`
immediately followed by
`completeStep('cli-exec', step.id, step.inputTokens || 100, step.outputTokens || 50, true)`. -/
def simulateCalls : List CliStep → List SimCall
  | [] => []
  | st :: rest =>
    SimCall.start "cli-exec" st.id ::
    SimCall.complete "cli-exec" st.id (jsOrDefault st.inputTokens 100)
      (jsOrDefault st.outputTokens 50) true ::
    simulateCalls rest

/-! ## Helper lemmas -/

theorem find?_map_update (l : List (Nat × Execution)) (i : Nat) (e' : Execution)
    (h : (l.find? (fun p => p.1 == i)).isSome = true) :
    ((l.map (fun p => if p.1 == i then (i, e') else p)).find? (fun p => p.1 == i))
      = some (i, e') := by
  induction l with
  | nil => simp [List.find?] at h
  | cons p tl ih =>
    by_cases hp : p.1 == i
    · simp [List.find?, hp]
    · simp only [List.map_cons, List.find?] at h ⊢
      simp only [hp, if_neg, Bool.false_eq_true, reduceIte] at h ⊢
      simpa [List.find?, hp] using ih (by simpa [List.find?, hp] using h)

theorem lookupExec_updateExec (s : OptimizerState) (i : Nat) (e e' : Execution)
    (h : lookupExec s i = some e) :
    lookupExec (updateExec s i e') i = some e' := by
  have hsome : (s.executions.find? (fun p => p.1 == i)).isSome = true := by
    unfold lookupExec at h
    rcases hf : s.executions.find? (fun p => p.1 == i) with _ | q
    · rw [hf] at h; simp at h
    · simp [hf]
  unfold lookupExec updateExec
  rw [find?_map_update _ _ _ hsome]
  rfl

theorem percentileOf_mono (l : List Nat) {n1 n2 den : Nat} (h : n1 ≤ n2) :
    percentileOf l n1 den ≤ percentileOf l n2 den := by
  unfold percentileOf
  set s := l.insertionSort (· ≤ ·) with hs
  by_cases he : s.isEmpty
  · simp [he]
  · simp only [he, Bool.false_eq_true, reduceIte]
    have hne : s ≠ [] := by
      intro hnil
      rw [hnil] at he
      simp at he
    have hlen : 0 < s.length := List.length_pos.mpr hne
    have hsorted : List.Sorted (· ≤ ·) s := List.sorted_insertionSort (· ≤ ·) l
    have hr12 : max 1 (min s.length (ceilDivNat (n1 * s.length) den))
        ≤ max 1 (min s.length (ceilDivNat (n2 * s.length) den)) := by
      apply max_le_max (le_refl 1)
      apply min_le_min (le_refl s.length)
      unfold ceilDivNat
      exact Nat.div_le_div_right
        (Nat.sub_le_sub_right (Nat.add_le_add_right (Nat.mul_le_mul_right _ h) den) 1)
    have hr2le : max 1 (min s.length (ceilDivNat (n2 * s.length) den)) ≤ s.length := by
      apply max_le _ (min_le_left _ _)
      exact hlen
    have hj : max 1 (min s.length (ceilDivNat (n2 * s.length) den)) - 1 < s.length := by
      omega
    have hi : max 1 (min s.length (ceilDivNat (n1 * s.length) den)) - 1
        ≤ max 1 (min s.length (ceilDivNat (n2 * s.length) den)) - 1 :=
      Nat.sub_le_sub_right hr12 1
    have hilt : max 1 (min s.length (ceilDivNat (n1 * s.length) den)) - 1 < s.length :=
      lt_of_le_of_lt hi hj
    rw [List.getD_eq_getElem s 0 hilt, List.getD_eq_getElem s 0 hj]
    have := hsorted.rel_get_of_le (a := ⟨_, hilt⟩) (b := ⟨_, hj⟩) hi
    simpa [List.get_eq_getElem] using this

theorem percentileOf_singleton (t num den : Nat) : percentileOf [t] num den = t := by
  have h : List.insertionSort (· ≤ ·) [t] = [t] := rfl
  simp only [percentileOf, h, List.length_singleton, List.isEmpty_cons]
  have h2 : (1 ⊔ (1 ⊓ ceilDivNat (num * 1) den)) - 1 = 0 := by omega
  simp [h2]

/-- The latency metrics of an analysis are the percentiles of the
per-execution total latencies. -/
theorem analyzeWorkflow_latencyMetrics (s : OptimizerState) (w : String) :
    (analyzeWorkflow s w).latencyMetrics
      = latencyMetricsOf ((completedExecs s w).map (fun e => traceLatency e.trace)) := rfl

/-- Under JavaScript truthiness, a nonzero default survives: the simulate loop
never records a zero token count. -/
theorem jsOrDefault_ne_zero (v : Option Nat) (d : Nat) (hd : d ≠ 0) :
    jsOrDefault v d ≠ 0 := by
  unfold jsOrDefault
  match v with
  | none => exact hd
  | some n =>
    by_cases hn : n = 0
    · simp [hn]; exact hd
    · simp [hn]

/-! ## Concrete example inputs -/

/-- A completed execution of workflow "wf" whose single step spans `tot` time units. -/
def sampleExec (tot : Nat) : Execution :=
  { workflowId := "wf", label := "cli-exec", status := .completed, startTime := 0,
    endTime := some tot,
    trace := [{ stepId := "s1", agentId := "ag", startTimestamp := 0,
                endTimestamp := some tot, inputTokens := 100, outputTokens := 50,
                success := true, error := none }] }

/-- Three completed executions with total latencies 100, 200 and 300 (§8 example). -/
def threeExecState : OptimizerState :=
  { agents := [], nextId := 3,
    executions := [(0, sampleExec 100), (1, sampleExec 200), (2, sampleExec 300)] }

/-- One completed execution of total latency 42. -/
def oneExecState : OptimizerState :=
  { agents := [], nextId := 1, executions := [(0, sampleExec 42)] }

/-- A state with no executions at all. -/
def emptyState : OptimizerState :=
  { agents := [], executions := [], nextId := 0 }

/-- A state whose only execution of "wf" is still running, hence excluded from
analysis until completed. -/
def runningState : OptimizerState :=
  { agents := [], nextId := 6,
    executions := [(5, { workflowId := "wf", label := "r", status := .running,
                         startTime := 0, endTime := none, trace := [] })] }

/-- A StepEvent that was started but never completed. -/
def openEv : StepEvent :=
  { stepId := "open-step", agentId := "ag", startTimestamp := 3, endTimestamp := none,
    inputTokens := 0, outputTokens := 0, success := false, error := none }

/-- A running execution with one open step. -/
def openExec : Execution :=
  { workflowId := "wf", label := "x", status := .running, startTime := 0,
    endTime := none, trace := [openEv] }

/-- A state holding the running execution with the open step under id 5. -/
def openState : OptimizerState :=
  { agents := [], nextId := 6, executions := [(5, openExec)] }

/-- Declared-independent step of latency 100 (§8 parallelization example). -/
def stepA : WStep :=
  { id := "a", agentId := "agA", inputTokens := 10, deps := some [],
    latency := 100, cost := 1, cached := false }

/-- Declared-independent step of latency 150 (§8 parallelization example). -/
def stepB : WStep :=
  { id := "b", agentId := "agB", inputTokens := 20, deps := some [],
    latency := 150, cost := 2, cached := false }

/-- The §8 example workflow: two independent steps of 100ms and 150ms, observed
sequential total 250ms. -/
def twoStepWf : Workflow := { id := "wf", steps := [stepA, stepB], concurrentGroups := [] }

/-- A single-step workflow: no optimization strategy's precondition holds on it. -/
def oneStepWf : Workflow := { id := "w1", steps := [stepA], concurrentGroups := [] }

/-- A workflow step of the CLI's JSON input with a zero input-token count and an
absent output-token count. -/
def cliStepZero : CliStep :=
  { id := "s1", agentId := "ag", inputTokens := some 0, outputTokens := none }

/-! ## Claim theorems -/

/-- Claim C1: analyzeWorkflow computes p50/p90/p95/p99 by nearest-rank interpolation
on the sorted per-execution total latencies with rank `ceil(p * n)` clamped to
`[1, n]`: for the three total latencies `[100, 200, 300]` this gives p50 = 200 and
p90 = 300, and with a single sample all four percentiles equal that sample. -/
theorem claim_c1_percentiles (s : OptimizerState) (w : String) (t : Nat)
    (h : (completedExecs s w).map (fun e => traceLatency e.trace) = [t]) :
    (analyzeWorkflow s w).latencyMetrics = ⟨t, t, t, t⟩
    ∧ (analyzeWorkflow threeExecState "wf").latencyMetrics.p50 = 200
    ∧ (analyzeWorkflow threeExecState "wf").latencyMetrics.p90 = 300 := by
  refine ⟨?_, by decide, by decide⟩
  rw [analyzeWorkflow_latencyMetrics, h]
  unfold latencyMetricsOf
  simp [percentileOf_singleton]

/-- Witness for C1: a state with the single total latency 42 has all four
percentiles equal to 42, and the three-execution example gives p50 = 200, p90 = 300. -/
theorem claim_c1_percentiles_witness :
    (analyzeWorkflow oneExecState "wf").latencyMetrics = ⟨42, 42, 42, 42⟩
    ∧ (analyzeWorkflow threeExecState "wf").latencyMetrics.p50 = 200
    ∧ (analyzeWorkflow threeExecState "wf").latencyMetrics.p90 = 300 :=
  claim_c1_percentiles oneExecState "wf" 42 (by decide)

/-- Claim C2: completeExecution force-closes every still-open step with
`success = false` and an implicit timeout error; such a step counts as a failure
for the quality metrics, so the execution contributes 0 to the success rate. -/
theorem claim_c2_force_close (s : OptimizerState) (i : Nat) (e : Execution)
    (fs : ExecStatus) (now : Nat)
    (he : lookupExec s i = some e) (hr : e.status = .running)
    (ev : StepEvent) (hev : ev ∈ e.trace) (hopen : ev.endTimestamp = none) :
    (∃ s', completeExecution s i fs now = .ok s'
       ∧ lookupExec s' i = some (closeExec e fs now))
    ∧ forceClose now ev ∈ (closeExec e fs now).trace
    ∧ (forceClose now ev).success = false
    ∧ (forceClose now ev).error = some "timeout"
    ∧ (forceClose now ev).endTimestamp = some now
    ∧ isSuccessfulExec (closeExec e fs now) = false
    ∧ successRateOf [closeExec e fs now] = 0 := by
  have hfc : forceClose now ev
      = { ev with endTimestamp := some now, success := false, error := some "timeout" } := by
    unfold forceClose
    simp [hopen]
  have hmem : forceClose now ev ∈ (closeExec e fs now).trace := by
    unfold closeExec
    exact List.mem_map_of_mem (forceClose now) hev
  have hfail : isSuccessfulExec (closeExec e fs now) = false := by
    unfold isSuccessfulExec
    have hall : ((closeExec e fs now).trace.all fun x => x.success) = false := by
      apply List.all_eq_false.mpr
      exact ⟨forceClose now ev, hmem, by rw [hfc]; simp⟩
    simp [hall]
  refine ⟨⟨updateExec s i (closeExec e fs now), ?_, ?_⟩, hmem, ?_, ?_, ?_, hfail, ?_⟩
  · unfold completeExecution
    rw [he]
    simp [hr]
  · exact lookupExec_updateExec s i e _ he
  · rw [hfc]
  · rw [hfc]
  · rw [hfc]
  · unfold successRateOf
    simp only [List.length_singleton]
    have hcount : ([closeExec e fs now].countP fun x => isSuccessfulExec x) = 0 := by
      simp [List.countP, List.countP.go, hfail]
    rw [hcount]
    simp

/-- Witness for C2: completing an execution whose step "open-step" is still open
force-closes it as a timeout failure and zeroes its success-rate contribution. -/
theorem claim_c2_force_close_witness :
    (∃ s', completeExecution openState 5 .completed 9 = .ok s'
       ∧ lookupExec s' 5 = some (closeExec openExec .completed 9))
    ∧ forceClose 9 openEv ∈ (closeExec openExec .completed 9).trace
    ∧ (forceClose 9 openEv).success = false
    ∧ (forceClose 9 openEv).error = some "timeout"
    ∧ (forceClose 9 openEv).endTimestamp = some 9
    ∧ isSuccessfulExec (closeExec openExec .completed 9) = false
    ∧ successRateOf [closeExec openExec .completed 9] = 0 :=
  claim_c2_force_close openState 5 openExec .completed 9 (by decide) (by decide)
    openEv (by decide) (by decide)

/-- Claim C3: completeStep fails with StepNotRunningError whenever no open
StepEvent for that step id exists in the execution, and startStep fails with
StepAlreadyRunningError whenever a StepEvent for that step id is already open. -/
theorem claim_c3_step_errors (s : OptimizerState) (i : Nat) (e : Execution)
    (step : StepDef) (sid : String) (inTok outTok : Nat) (suc : Bool)
    (err : Option String) (now : Nat)
    (he : lookupExec s i = some e) :
    (stepOpen e.trace sid = false →
       completeStep s i sid inTok outTok suc err now = .error .stepNotRunning)
    ∧ (stepOpen e.trace step.id = true →
       startStep s i step now = .error .stepAlreadyRunning) := by
  constructor
  · intro hno
    unfold completeStep
    rw [he]
    simp [hno]
  · intro hyes
    unfold startStep
    rw [he]
    simp [hyes]

/-- Witness for C3: in the concrete state with only "open-step" open, completing
"other" fails with StepNotRunningError and starting "open-step" again fails with
StepAlreadyRunningError. -/
theorem claim_c3_step_errors_witness :
    completeStep openState 5 "other" 1 2 true none 9 = .error .stepNotRunning
    ∧ startStep openState 5
        { id := "open-step", agentId := "ag", inputTokens := none, outputTokens := none } 9
      = .error .stepAlreadyRunning :=
  ⟨(claim_c3_step_errors openState 5 openExec
      { id := "open-step", agentId := "ag", inputTokens := none, outputTokens := none }
      "other" 1 2 true none 9 (by decide)).1 (by decide),
   (claim_c3_step_errors openState 5 openExec
      { id := "open-step", agentId := "ag", inputTokens := none, outputTokens := none }
      "other" 1 2 true none 9 (by decide)).2 (by decide)⟩

/-- Claim C4: the percentile metrics returned by analyzeWorkflow always satisfy
p50 ≤ p90 ≤ p95 ≤ p99. -/
theorem claim_c4_percentile_monotone (s : OptimizerState) (w : String) :
    (analyzeWorkflow s w).latencyMetrics.p50 ≤ (analyzeWorkflow s w).latencyMetrics.p90
    ∧ (analyzeWorkflow s w).latencyMetrics.p90 ≤ (analyzeWorkflow s w).latencyMetrics.p95
    ∧ (analyzeWorkflow s w).latencyMetrics.p95 ≤ (analyzeWorkflow s w).latencyMetrics.p99 := by
  rw [analyzeWorkflow_latencyMetrics]
  unfold latencyMetricsOf
  exact ⟨percentileOf_mono _ (by omega), percentileOf_mono _ (by omega),
         percentileOf_mono _ (by omega)⟩

/-- Claim C5: with zero recorded executions, analyzeWorkflow succeeds and returns
totalLatency = 0, totalCost = 0, successRate = 0 and no bottleneck steps; the
success-rate division is guarded and never divides by zero. -/
theorem claim_c5_zero_executions (s : OptimizerState) (w : String)
    (h : completedExecs s w = []) :
    analyzeWorkflow s w
      = { totalLatency := 0, totalCost := 0, successRate := 0,
          latencyMetrics := ⟨0, 0, 0, 0⟩, stepAnalysis := [] } := by
  unfold analyzeWorkflow
  rw [h]
  rfl

/-- Witness for C5: the empty state analyzes to the all-zero result. -/
theorem claim_c5_zero_executions_witness :
    analyzeWorkflow emptyState "wf"
      = { totalLatency := 0, totalCost := 0, successRate := 0,
          latencyMetrics := ⟨0, 0, 0, 0⟩, stepAnalysis := [] } :=
  claim_c5_zero_executions emptyState "wf" (by decide)

/-- Claim C6: when the Parallelization strategy groups a pair of independent steps,
the predicted latency reduction is
`(sum of their latencies - max of their latencies) / totalLatency * 100` and the
predicted cost reduction is 0; for the two independent steps of 100ms and 150ms
with observed total 250ms the predicted latency reduction is 40%. -/
theorem claim_c6_parallelization (w : Workflow) (a b : WStep)
    (hpair : firstIndependentPair w = some (a, b))
    (htot : wfTotalLatency w ≠ 0) :
    ((parallelizationApply w).2.improvements.latencyReduction
        = (a.latency + b.latency - max a.latency b.latency) / wfTotalLatency w * 100
      ∧ (parallelizationApply w).2.improvements.costReduction = 0)
    ∧ (parallelizationApply twoStepWf).2.improvements.latencyReduction = 40
    ∧ (parallelizationApply twoStepWf).2.improvements.costReduction = 0 := by
  have hgen : (parallelizationApply w).2.improvements = parallelImprovements w a b := by
    unfold parallelizationApply
    rw [hpair]
  refine ⟨⟨?_, ?_⟩, ?_, ?_⟩
  · rw [hgen]
    unfold parallelImprovements
    simp [htot]
  · rw [hgen]
    rfl
  · have hp : firstIndependentPair twoStepWf = some (stepA, stepB) := rfl
    have h40 : (parallelizationApply twoStepWf).2.improvements
        = parallelImprovements twoStepWf stepA stepB := by
      unfold parallelizationApply
      rw [hp]
    rw [h40]
    unfold parallelImprovements
    norm_num [wfTotalLatency, twoStepWf, stepA, stepB]
  · rfl

/-- Witness for C6: the 100ms/150ms example workflow — formula and the 40% figure. -/
theorem claim_c6_parallelization_witness :
    ((parallelizationApply twoStepWf).2.improvements.latencyReduction
        = (stepA.latency + stepB.latency - max stepA.latency stepB.latency)
            / wfTotalLatency twoStepWf * 100
      ∧ (parallelizationApply twoStepWf).2.improvements.costReduction = 0)
    ∧ (parallelizationApply twoStepWf).2.improvements.latencyReduction = 40
    ∧ (parallelizationApply twoStepWf).2.improvements.costReduction = 0 :=
  claim_c6_parallelization twoStepWf stepA stepB rfl
    (by norm_num [wfTotalLatency, twoStepWf, stepA, stepB])

/-- Claim C7: when no strategy's precondition holds, optimizeWorkflow returns an
empty result list and the input workflow unchanged; re-running it on that output
again returns the same workflow with an empty result list — a successful result,
not an error. -/
theorem claim_c7_identity_optimization (w : Workflow)
    (h : ∀ strat ∈ strategies, strat.precond w = false) :
    optimizeWorkflow w = (w, [])
    ∧ optimizeWorkflow (optimizeWorkflow w).1 = ((optimizeWorkflow w).1, []) := by
  have h0 : parallelizationPrecond w = false :=
    h ⟨parallelizationPrecond, parallelizationApply⟩ (List.mem_cons_self _ _)
  have h1 : cachingPrecond w = false :=
    h ⟨cachingPrecond, cachingApply⟩
      (List.mem_cons_of_mem _ (List.mem_cons_self _ _))
  have h2 : batchingPrecond w = false :=
    h ⟨batchingPrecond, batchingApply⟩
      (List.mem_cons_of_mem _ (List.mem_cons_of_mem _ (List.mem_cons_self _ _)))
  have hmain : optimizeWorkflow w = (w, []) := by
    unfold optimizeWorkflow strategies
    simp [applyStrategy, h0, h1, h2]
  refine ⟨hmain, ?_⟩
  rw [hmain]
  exact hmain

/-- Witness for C7: on the single-step workflow no strategy applies, so
optimization is the identity with an empty result list, twice over. -/
theorem claim_c7_identity_optimization_witness :
    optimizeWorkflow oneStepWf = (oneStepWf, [])
    ∧ optimizeWorkflow (optimizeWorkflow oneStepWf).1
      = ((optimizeWorkflow oneStepWf).1, []) :=
  claim_c7_identity_optimization oneStepWf (by
    intro strat hs
    simp only [strategies, List.mem_cons, List.not_mem_nil, or_false] at hs
    rcases hs with h | h | h <;> subst h <;> rfl)

/-- Claim C8: analyzeWorkflow is a pure function of the completed Traces stored
for the requested workflow id plus the registered agents' cost profiles: two
states agreeing on those analyze identically, so calling it twice on an
unchanged trace set returns identical results. -/
theorem claim_c8_pure_analysis (s1 s2 : OptimizerState) (w : String)
    (hexec : completedExecs s1 w = completedExecs s2 w)
    (hag : s1.agents = s2.agents) :
    analyzeWorkflow s1 w = analyzeWorkflow s2 w := by
  unfold analyzeWorkflow
  rw [hexec, hag]

/-- Witness for C8: the empty state and a state holding only a still-running
execution of "wf" have the same completed traces, hence the same analysis. -/
theorem claim_c8_pure_analysis_witness :
    analyzeWorkflow emptyState "wf" = analyzeWorkflow runningState "wf" :=
  claim_c8_pure_analysis emptyState runningState "wf" (by decide) (by decide)

/-- Claim C9: startExecution returns the identifier of the newly allocated
Execution (a fresh running execution with an empty trace), that identifier is
accepted by subsequent startStep and completeExecution calls, and startStep,
completeStep and completeExecution all fail with ExecutionNotFoundError on an
unknown execution id. -/
theorem claim_c9_execution_id (s : OptimizerState) (wf lbl : String)
    (now now2 : Nat) (step : StepDef) (i : Nat) (inTok outTok : Nat) (suc : Bool)
    (err : Option String) (fs : ExecStatus)
    (hnone : lookupExec s i = none) :
    (lookupExec (startExecution s wf lbl now).2 (startExecution s wf lbl now).1
       = some { workflowId := wf, label := lbl, status := .running,
                startTime := now, endTime := none, trace := [] })
    ∧ (∃ s', startStep (startExecution s wf lbl now).2 (startExecution s wf lbl now).1
         step now2 = .ok s')
    ∧ (∃ s', completeExecution (startExecution s wf lbl now).2
         (startExecution s wf lbl now).1 fs now2 = .ok s')
    ∧ startStep s i step now2 = .error .executionNotFound
    ∧ completeStep s i step.id inTok outTok suc err now2 = .error .executionNotFound
    ∧ completeExecution s i fs now2 = .error .executionNotFound := by
  have hfresh : lookupExec (startExecution s wf lbl now).2 (startExecution s wf lbl now).1
      = some { workflowId := wf, label := lbl, status := .running,
               startTime := now, endTime := none, trace := [] } := by
    unfold startExecution lookupExec
    simp [List.find?]
  refine ⟨hfresh, ?_, ?_, ?_, ?_, ?_⟩
  · unfold startStep
    rw [hfresh]
    simp [stepOpen]
  · unfold completeExecution
    rw [hfresh]
    simp
  · unfold startStep
    rw [hnone]
  · unfold completeStep
    rw [hnone]
  · unfold completeExecution
    rw [hnone]

/-- Witness for C9: starting an execution on the empty state yields id 0, which
subsequent calls accept, while the unknown id 7 is rejected with
ExecutionNotFoundError by all three operations. -/
theorem claim_c9_execution_id_witness :
    (lookupExec (startExecution emptyState "wf" "cli-exec" 1).2
        (startExecution emptyState "wf" "cli-exec" 1).1
       = some { workflowId := "wf", label := "cli-exec", status := .running,
                startTime := 1, endTime := none, trace := [] })
    ∧ (∃ s', startStep (startExecution emptyState "wf" "cli-exec" 1).2
         (startExecution emptyState "wf" "cli-exec" 1).1
         { id := "s1", agentId := "ag", inputTokens := none, outputTokens := none } 2
         = .ok s')
    ∧ (∃ s', completeExecution (startExecution emptyState "wf" "cli-exec" 1).2
         (startExecution emptyState "wf" "cli-exec" 1).1 .completed 2 = .ok s')
    ∧ startStep emptyState 7
        { id := "s1", agentId := "ag", inputTokens := none, outputTokens := none } 2
      = .error .executionNotFound
    ∧ completeStep emptyState 7 "s1" 0 0 true none 2 = .error .executionNotFound
    ∧ completeExecution emptyState 7 .completed 2 = .error .executionNotFound :=
  claim_c9_execution_id emptyState "wf" "cli-exec" 1 2
    { id := "s1", agentId := "ag", inputTokens := none, outputTokens := none }
    7 0 0 true none .completed (by decide)

/-- Claim C10: the analyze command's simulate loop starts each step and
immediately completes it with success = true before the next step starts; a step
whose inputTokens (resp. outputTokens) is absent, null or 0 is recorded with 100
(resp. 50) because the defaults use the JavaScript or-operator, so a simulated
step never records a zero token count. -/
theorem claim_c10_simulate_defaults (steps : List CliStep) (st : CliStep)
    (rest : List CliStep) (c : SimCall) (hc : c ∈ simulateCalls steps) :
    (simulateCalls (st :: rest)
      = SimCall.start "cli-exec" st.id
        :: SimCall.complete "cli-exec" st.id (jsOrDefault st.inputTokens 100)
             (jsOrDefault st.outputTokens 50) true
        :: simulateCalls rest)
    ∧ (st.inputTokens = none ∨ st.inputTokens = some 0 →
        jsOrDefault st.inputTokens 100 = 100)
    ∧ (st.outputTokens = none ∨ st.outputTokens = some 0 →
        jsOrDefault st.outputTokens 50 = 50)
    ∧ (∀ eid sid iTok oTok suc, c = SimCall.complete eid sid iTok oTok suc →
        iTok ≠ 0 ∧ oTok ≠ 0 ∧ suc = true) := by
  refine ⟨rfl, ?_, ?_, ?_⟩
  · rintro (hv | hv) <;> simp [jsOrDefault, hv]
  · rintro (hv | hv) <;> simp [jsOrDefault, hv]
  · induction steps with
    | nil => simp [simulateCalls] at hc
    | cons a tl ih =>
      simp only [simulateCalls, List.mem_cons] at hc
      rcases hc with hc | hc | hc
      · intro eid sid iTok oTok suc heq
        rw [hc] at heq
        cases heq
      · intro eid sid iTok oTok suc heq
        rw [hc] at heq
        cases heq
        exact ⟨jsOrDefault_ne_zero _ _ (by decide),
               jsOrDefault_ne_zero _ _ (by decide), rfl⟩
      · exact ih hc

/-- Witness for C10: the step with inputTokens 0 and absent outputTokens is
simulated as started then completed with tokens 100/50 and success true, and its
complete call carries no zero token count. -/
theorem claim_c10_simulate_defaults_witness :
    (simulateCalls [cliStepZero]
      = SimCall.start "cli-exec" cliStepZero.id
        :: SimCall.complete "cli-exec" cliStepZero.id
             (jsOrDefault cliStepZero.inputTokens 100)
             (jsOrDefault cliStepZero.outputTokens 50) true
        :: simulateCalls [])
    ∧ (cliStepZero.inputTokens = none ∨ cliStepZero.inputTokens = some 0 →
        jsOrDefault cliStepZero.inputTokens 100 = 100)
    ∧ (cliStepZero.outputTokens = none ∨ cliStepZero.outputTokens = some 0 →
        jsOrDefault cliStepZero.outputTokens 50 = 50)
    ∧ (∀ eid sid iTok oTok suc,
        SimCall.complete "cli-exec" "s1" 100 50 true
          = SimCall.complete eid sid iTok oTok suc →
        iTok ≠ 0 ∧ oTok ≠ 0 ∧ suc = true) :=
  claim_c10_simulate_defaults [cliStepZero] cliStepZero []
    (SimCall.complete "cli-exec" "s1" 100 50 true) (by decide)

end ACO
